import Mathlib

/-!
Shallow embedding of the flymebaby-python flight-search service
(`src/app.py`, with the record types of `src/ryanair/types.py`).

Modelling conventions:
* Python strings are Lean `String`s; the handful of Python string
  primitives the code uses (substring test `in`, `split`, `int(...)`,
  `float(...)`, `strptime`) are modelled below, character by character.
* Python floats (prices) are modelled as exact rationals `Rat`; the code
  only multiplies and compares prices, so the ordering structure is what
  matters.
* A Python `datetime` is modelled as a `DateTime`: an integer day number
  plus a minute of the day.  `weekday` follows Python's convention
  (Monday = 0, Sunday = 6), with the convention that day number 0 is a
  Monday.  Calendar strings parsed by `strptime` are mapped to day
  numbers by a strictly monotone encoding (`toOrdinal`).
* The external Ryanair client (`ryanair.ryanair`, not part of the
  filtered/orchestrated logic) is an arbitrary function argument that
  either returns a list of candidates or fails, mirroring
  `try/except` around each call.
-/

namespace Flymebaby

/-- Helper for the Python substring operator: does the needle occur at the
head of the haystack? -/
def strStartsWithL : List Char → List Char → Bool
  | [], _ => true
  | _ :: _, [] => false
  | a :: as, b :: bs => a == b && strStartsWithL as bs

/-- Python's substring operator `needle in haystack`, on character lists. -/
def strContainsL (needle : List Char) : List Char → Bool
  | [] => strStartsWithL needle []
  | b :: bs => strStartsWithL needle (b :: bs) || strContainsL needle bs

/-- Python's substring operator `needle in haystack` on strings. -/
def strContains (needle haystack : String) : Bool :=
  strContainsL needle.data haystack.data

/-- Python `s.split(sep)` for a one-character separator, on character lists.
On the empty string it returns one empty piece — never the empty list. -/
def splitOnCharL (sep : Char) : List Char → List (List Char)
  | [] => [[]]
  | c :: rest =>
    if c == sep then [] :: splitOnCharL sep rest
    else
      match splitOnCharL sep rest with
      | [] => [[c]]
      | g :: gs => (c :: g) :: gs

/-- Python `s.split(',')` on strings, as used for `originAirports` and
`wantedCountries` (app.py lines 163, 186-187). -/
def splitComma (s : String) : List String :=
  (splitOnCharL ',' s.data).map (fun cs => String.mk cs)

def parseDigitsAux : List Char → Nat → Option Nat
  | [], acc => some acc
  | c :: cs, acc =>
    if c.isDigit then parseDigitsAux cs (10 * acc + (c.toNat - 48)) else none

/-- Parse a non-empty all-decimal-digit string to its value. -/
def parseDigits : List Char → Option Nat
  | [] => none
  | c :: cs => parseDigitsAux (c :: cs) 0

/-- Python `int(s)` on a string: optional sign followed by digits;
`none` models the `ValueError` raised on anything else.  (Exotic accepted
forms — embedded underscores, surrounding whitespace — are not modelled.) -/
def pyInt (s : String) : Option Int :=
  match s.data with
  | '-' :: rest => (parseDigits rest).map (fun n => -(n : Int))
  | '+' :: rest => (parseDigits rest).map (fun n => (n : Int))
  | cs => (parseDigits cs).map (fun n => (n : Int))

/-- Decimal fraction part of `pyFloat`. -/
def parseDecimal (cs : List Char) : Option Rat :=
  let intPart := cs.takeWhile (fun c => c != '.')
  let rest := cs.dropWhile (fun c => c != '.')
  match rest with
  | [] => (parseDigits intPart).map (fun n => (n : Rat))
  | _ :: fracPart =>
    if fracPart.any (fun c => c == '.') then none
    else
      match intPart, fracPart with
      | [], [] => none
      | [], f => (parseDigits f).map (fun n => (n : Rat) / (10 : Rat) ^ f.length)
      | i, [] => (parseDigits i).map (fun n => (n : Rat))
      | i, f =>
        match parseDigits i, parseDigits f with
        | some a, some b => some ((a : Rat) + (b : Rat) / (10 : Rat) ^ f.length)
        | _, _ => none

/-- Python `float(s)` on a string, restricted to the plain decimal forms the
service's numeric parameters use; `none` models `ValueError`. -/
def pyFloat (s : String) : Option Rat :=
  match s.data with
  | '-' :: rest => (parseDecimal rest).map (fun q => -q)
  | '+' :: rest => parseDecimal rest
  | cs => parseDecimal cs

/-- Gregorian leap-year test (as in Python's calendar validation). -/
def isLeap (y : Nat) : Bool := (y % 4 == 0 && y % 100 != 0) || y % 400 == 0

def daysInMonth (y m : Nat) : Nat :=
  if m == 2 then (if isLeap y then 29 else 28)
  else if m == 4 || m == 6 || m == 9 || m == 11 then 30
  else 31

/-- Python `datetime.strptime(s, "%Y-%m-%d")`: four-digit year, one- or
two-digit month and day, calendar-validated; `none` models `ValueError`. -/
def strptimeDate (s : String) : Option (Nat × Nat × Nat) :=
  match splitOnCharL '-' s.data with
  | [ys, ms, ds] =>
    if ys.length == 4 && ms.length ≤ 2 && ds.length ≤ 2 then
      match parseDigits ys, parseDigits ms, parseDigits ds with
      | some y, some m, some d =>
        if 1 ≤ y && 1 ≤ m && m ≤ 12 && 1 ≤ d && d ≤ daysInMonth y m then
          some (y, m, d) else none
      | _, _, _ => none
    else none
  | _ => none

/-- Cumulative day counts before each month in a non-leap year. -/
def cumDays (m : Nat) : Nat :=
  [0, 0, 31, 59, 90, 120, 151, 181, 212, 243, 273, 304, 334].getD m 0

/-- Strictly monotone encoding of a calendar date as an integer day number
(the generator only ever steps day numbers and compares them, so any order
embedding of the calendar is adequate). -/
def toOrdinal (y m d : Nat) : Int :=
  (y : Int) * 366 + (cumDays m : Int) + (if 2 < m && isLeap y then 1 else 0) + (d : Int)

/-- A Python `datetime`: integer day number plus minute of the day.
Day number 0 is taken to be a Monday. -/
structure DateTime where
  day : Int
  minuteOfDay : Nat
deriving DecidableEq

/-- Python `datetime.date()` — the calendar-day part. -/
def DateTime.date (t : DateTime) : Int := t.day

/-- Python `datetime.weekday()`: Monday is 0, Sunday is 6. -/
def DateTime.weekday (t : DateTime) : Int := t.day % 7

/-- Python `datetime.isoformat()`, modelled as any injective rendering of the
day number and minute (only equality of the rendered strings matters). -/
def DateTime.isoformat (t : DateTime) : String :=
  toString t.day ++ "T" ++ toString t.minuteOfDay

/-- Record `ryanair.types.Flight`. -/
structure Flight where
  departureTime : DateTime
  arrivalTime : DateTime
  flightNumber : String
  price : Rat
  currency : String
  origin : String
  originFull : String
  destination : String
  destinationFull : String
deriving DecidableEq

/-- Record `ryanair.types.Trip`. -/
structure Trip where
  totalPrice : Rat
  outbound : Flight
  inbound : Flight
deriving DecidableEq

/-- The `WeekendMode` enum of app.py lines 69-71 (`weekend` / `longWeekend`). -/
inductive WeekendMode where
  | DEFAULT
  | RELAXED
deriving DecidableEq

/-- Function `is_valid_weekend_day` (app.py lines 73-95).  Python's
`weekday in [4, 5]` list tests become boolean disjunctions. -/
def is_valid_weekend_day (date : DateTime) (mode : WeekendMode) (isOutbound : Bool) : Bool :=
  let weekday := date.weekday
  match mode with
  | WeekendMode.DEFAULT =>
    if isOutbound then weekday == 4 || weekday == 5
    else weekday == 5 || weekday == 6
  | WeekendMode.RELAXED =>
    if isOutbound then weekday == 3 || weekday == 4 || weekday == 5
    else weekday == 6 || weekday == 0

/-- Function `is_valid_weekend_trip` (app.py lines 97-110). -/
def is_valid_weekend_trip (outboundDate inboundDate : DateTime) (mode : WeekendMode) : Bool :=
  is_valid_weekend_day outboundDate mode true && is_valid_weekend_day inboundDate mode false

/-- Function `validate_airport_code` (app.py lines 65-67): the regex `^[A-Z]{3}$`. -/
def validate_airport_code (code : String) : Bool :=
  code.data.length == 3 && code.data.all Char.isUpper

/-- The query parameters of one GET request to `/api/search-flights`
(`request.args.get(...)`: `none` means the parameter is absent). -/
structure RawRequest where
  tripType : Option String
  startDate : Option String
  endDate : Option String
  maxPrice : Option String
  minDays : Option String
  maxDays : Option String
  originAirports : Option String
  wantedCountries : Option String
  adults : Option String
  teens : Option String
  children : Option String
deriving DecidableEq

/-- The validated per-request configuration that `generate_results` closes
over (app.py lines 203-228). -/
structure SearchConfig where
  tripType : Option String
  startD : Int
  endD : Int
  maximum_price : Rat
  min_days : Int
  max_days : Int
  origin_codes : List String
  wanted_countries : List String
  adults : Int
  teens : Int
  children : Int
  total_passengers : Int
deriving DecidableEq

/-- Outcome of `search_flights` before any streaming: a 400-class error
response, the 500-class blanket handler of app.py lines 414-419, or a
200 streaming response driven by the validated configuration. -/
inductive SearchResponse where
  | badRequest (msg : String)
  | internalError
  | stream (cfg : SearchConfig)
deriving DecidableEq

/-- Request validation: app.py lines 153-228.  Faithful to these Python
behaviours:
* `validate_date_format(None)` calls `strptime(None, ...)`, which raises
  `TypeError`; the surrounding handler only catches `ValueError`, so a
  missing `startDate` escapes to the blanket handler → `internalError`.
* The `data` dict literal (lines 179-191) contains every key, so the
  `field not in data` loop of lines 197-199 can never return; it is a
  no-op and is omitted.
* Lines 202-214 re-parse `endDate`, `maxPrice`, `minDays`, `maxDays`
  unconditionally inside `try/except ValueError`; a `None` value raises
  `TypeError` there → `internalError`.
* `split(',')` never returns an empty list, so the emptiness check of
  lines 219-220 is modelled as written but is unreachable.
* Line 222 runs `int(...)` on the raw (undefaulted) values outside any
  local handler; both `TypeError` (absent) and `ValueError` (unparsable)
  escape to the blanket handler → `internalError`. -/
def search_flights (req : RawRequest) : SearchResponse :=
  match req.startDate with
  | none => SearchResponse.internalError
  | some sd =>
    if (strptimeDate sd).isNone then SearchResponse.badRequest "Invalid date format"
    else
      -- line 159: `end_date and not validate_date_format(end_date)`;
      -- None and the empty string are falsy, short-circuiting the check
      if (match req.endDate with
          | none => false
          | some ed => ed != "" && (strptimeDate ed).isNone) then
        SearchResponse.badRequest "Invalid date format"
      else
        -- lines 163-165
        if !(((splitComma ((req.originAirports).getD "")).filter
                (fun c => c != "")).all validate_airport_code) then
          SearchResponse.badRequest "Invalid airport code"
        else
          -- lines 168-177; absent parameters default to the integer 0
          match (match req.maxPrice with | none => some (0 : Rat) | some s => pyFloat s),
                (match req.adults with | none => some (0 : Int) | some s => pyInt s),
                (match req.teens with | none => some (0 : Int) | some s => pyInt s),
                (match req.children with | none => some (0 : Int) | some s => pyInt s) with
          | some mp, some ad, some te, some ch =>
            if mp < 0 ∨ ad < 1 ∨ te < 0 ∨ ch < 0 then
              SearchResponse.badRequest "Invalid numeric values"
            else
              -- lines 202-206
              match req.endDate with
              | none => SearchResponse.internalError
              | some ed =>
                match strptimeDate ed, strptimeDate sd with
                | some eymd, some symd =>
                  -- lines 209-214
                  match req.maxPrice with
                  | none => SearchResponse.internalError
                  | some mps =>
                    match pyFloat mps with
                    | none => SearchResponse.badRequest "Invalid numeric value"
                    | some maximum_price =>
                      match req.minDays with
                      | none => SearchResponse.internalError
                      | some mnds =>
                        match pyInt mnds with
                        | none => SearchResponse.badRequest "Invalid numeric value"
                        | some min_days =>
                          match req.maxDays with
                          | none => SearchResponse.internalError
                          | some mxds =>
                            match pyInt mxds with
                            | none => SearchResponse.badRequest "Invalid numeric value"
                            | some max_days =>
                              -- lines 216-220
                              if splitComma ((req.originAirports).getD "") = [] ∨
                                 splitComma ((req.wantedCountries).getD "") = [] then
                                SearchResponse.badRequest
                                  "Origin airports and wanted countries cannot be empty"
                              else
                                -- line 222, outside any ValueError handler
                                match (req.adults).bind pyInt, (req.teens).bind pyInt,
                                      (req.children).bind pyInt with
                                | some a, some t, some c =>
                                  SearchResponse.stream
                                    { tripType := req.tripType
                                      startD := toOrdinal symd.1 symd.2.1 symd.2.2
                                      endD := toOrdinal eymd.1 eymd.2.1 eymd.2.2
                                      maximum_price := maximum_price
                                      min_days := min_days
                                      max_days := max_days
                                      origin_codes := splitComma ((req.originAirports).getD "")
                                      wanted_countries := splitComma ((req.wantedCountries).getD "")
                                      adults := a
                                      teens := t
                                      children := c
                                      total_passengers := a + t + c }
                                | _, _, _ => SearchResponse.internalError
                | none, _ => SearchResponse.badRequest "Invalid date format. Use YYYY-MM-DD"
                | _, none => SearchResponse.badRequest "Invalid date format. Use YYYY-MM-DD"
          | _, _, _, _ => SearchResponse.badRequest "Invalid numeric values"

/-- External client call `api.get_cheapest_flights(origin, dateFrom, dateTo,
...)`; `Except.error` models a raised exception (app.py lines 240-251).
Passenger counts are fixed per request and omitted from the signature. -/
abbrev OneWayApi := String → Int → Int → Except Unit (List Flight)

/-- External client call `api.get_cheapest_return_flights(origin, dateFrom,
dateTo, stayFrom, stayTo, ...)` (app.py lines 319-328). -/
abbrev ReturnApi := String → Int → Int → Int → Int → Except Unit (List Trip)

/-- One server-sent event of the stream.  A result event carries the
candidate it was serialized from together with the `totalPrice` field the
code computes; the remaining JSON fields are verbatim copies of the
candidate's own fields (app.py lines 277-293 and 348-384). -/
inductive Event where
  | oneWayResult (flight : Flight) (totalPrice : Rat)
  | returnResult (pair : Trip) (totalPrice : Rat)
  | noFlights
  | endOfStream
deriving DecidableEq

/-- The budget conjunct `(price * total_passengers) <= maximum_price` shared
by both filters (app.py lines 258 and 332). -/
def priceOk (cfg : SearchConfig) (p : Rat) : Bool :=
  decide (p * (cfg.total_passengers : Rat) ≤ cfg.maximum_price)

/-- The test `any(country in destinationFull for country in wanted_countries)`
(app.py lines 259 and 333). -/
def wantedMatch (countries : List String) (destFull : String) : Bool :=
  countries.any (fun c => strContains c destFull)

/-- The one-way list-comprehension filter (app.py lines 256-260). -/
def oneWayFilter (cfg : SearchConfig) (f : Flight) : Bool :=
  priceOk cfg f.price && wantedMatch cfg.wanted_countries f.destinationFull

/-- The return-family list-comprehension filter (app.py lines 330-341). -/
def returnFilter (cfg : SearchConfig) (mode : Option WeekendMode) (t : Trip) : Bool :=
  priceOk cfg t.totalPrice
    && wantedMatch cfg.wanted_countries t.outbound.destinationFull
    && (match mode with
        | none => true
        | some m => is_valid_weekend_trip t.outbound.departureTime t.inbound.departureTime m)
    && decide (t.inbound.departureTime.date ≤ cfg.endD)

/-- The key `flight_id = f"{origin}-{destination}-{departureTime.isoformat()}"`
(app.py line 267). -/
def flightId (f : Flight) : String :=
  f.origin ++ "-" ++ f.destination ++ "-" ++ f.departureTime.isoformat

/-- Insert one element into a list already processed by `sortByKey`,
keeping it before the first element of key ≥ its own. -/
def insertByKey {α : Type} (key : α → Rat) (a : α) : List α → List α
  | [] => [a]
  | b :: l => if key a ≤ key b then a :: b :: l else b :: insertByKey key a l

/-- Python `sorted(l, key=...)` (app.py lines 265 and 346).  Python's sort is
stable, and a stable sort by a key is extensionally unique, so stable
insertion sort is a faithful model. -/
def sortByKey {α : Type} (key : α → Rat) : List α → List α
  | [] => []
  | a :: l => insertByKey key a (sortByKey key l)

/-- Serialization of one one-way flight (app.py lines 277-293): the JSON
carries the flight's own fields plus `totalPrice = price * total_passengers`
(line 292). -/
def emitFlightEvent (cfg : SearchConfig) (f : Flight) : Event :=
  Event.oneWayResult f (f.price * (cfg.total_passengers : Rat))

/-- Serialization of one return-family pair (app.py lines 348-384):
`totalPrice = trip.totalPrice * total_passengers` (line 383). -/
def emitTripEvent (cfg : SearchConfig) (t : Trip) : Event :=
  Event.returnResult t (t.totalPrice * (cfg.total_passengers : Rat))

/-- The one-way emission loop over a sorted batch (app.py lines 265-295):
threads the `seen_flights` set, skipping candidates whose `flight_id` was
seen and recording the ids of the ones emitted. -/
def emitOneWay (cfg : SearchConfig) : List Flight → List String → List String × List Event
  | [], seen => (seen, [])
  | f :: rest, seen =>
    if flightId f ∈ seen then emitOneWay cfg rest seen
    else
      let out := emitOneWay cfg rest (flightId f :: seen)
      (out.1, emitFlightEvent cfg f :: out.2)

/-- Mutable state of the one-way loop: `seen_flights`, `flights_found`, and
the events yielded so far. -/
structure OneWayState where
  seen : List String
  flights_found : Bool
  events : List Event
deriving DecidableEq

/-- The body of the one-way loop for one `(date, origin)` pair
(app.py lines 238-299).  A failed upstream call leaves the state unchanged
(`continue`), as does an empty result list. -/
def oneWayBatch (cfg : SearchConfig) (api : OneWayApi) (d : Int) (o : String)
    (st : OneWayState) : OneWayState :=
  match api o d (d + 1) with
  | Except.error _ => st
  | Except.ok trips =>
    if trips = [] then st
    else
      let filtered := trips.filter (oneWayFilter cfg)
      let out := emitOneWay cfg (sortByKey Flight.price filtered) st.seen
      { seen := out.1
        flights_found := st.flights_found || !filtered.isEmpty
        events := st.events ++ out.2 }

/-- The integer interval `[lo, hi]` as an ascending list; empty when
`hi < lo`. -/
def intRange (lo hi : Int) : List Int :=
  (List.range (hi + 1 - lo).toNat).map (fun i : Nat => lo + (i : Int))

/-- The departure dates iterated by the one-way loop: every day from
`start_date` to `end_date` inclusive (app.py lines 235-236, 300). -/
def oneWayDates (cfg : SearchConfig) : List Int := intRange cfg.startD cfg.endD

/-- The one-way branch of `generate_results` (app.py lines 233-300): note
that this branch yields no sentinel events at all — lines 392-400 sit
inside the `else` branch. -/
def runOneWay (cfg : SearchConfig) (api : OneWayApi) : List Event :=
  ((oneWayDates cfg).foldl
    (fun st d => cfg.origin_codes.foldl (fun st2 o => oneWayBatch cfg api d o st2) st)
    { seen := [], flights_found := false, events := [] }).events

/-- The `weekend_mode` assignment (app.py lines 303-305). -/
def weekendModeOf : Option String → Option WeekendMode
  | some s =>
    if s = "weekend" then some WeekendMode.DEFAULT
    else if s = "longWeekend" then some WeekendMode.RELAXED
    else none
  | none => none

/-- Mutable state of the return-family loop. -/
structure ReturnState where
  flights_found : Bool
  events : List Event
deriving DecidableEq

/-- The events produced from one raw return-family batch: filter, stable
sort by pair price, serialize (app.py lines 330-385). -/
def returnBatchEvents (cfg : SearchConfig) (mode : Option WeekendMode)
    (trips : List Trip) : List Event :=
  (sortByKey Trip.totalPrice (trips.filter (returnFilter cfg mode))).map (emitTripEvent cfg)

/-- The body of the return-family loop for one `(date, origin)` pair
(app.py lines 317-388).  A failed upstream call leaves the state unchanged. -/
def returnBatch (cfg : SearchConfig) (api : ReturnApi) (mode : Option WeekendMode)
    (d : Int) (o : String) (st : ReturnState) : ReturnState :=
  match api o d d (d + cfg.min_days) (min cfg.endD (d + cfg.max_days)) with
  | Except.error _ => st
  | Except.ok trips =>
    { flights_found := st.flights_found || !(trips.filter (returnFilter cfg mode)).isEmpty
      events := st.events ++ returnBatchEvents cfg mode trips }

/-- The departure dates iterated by the return-family loop: every day from
`start_date` to `latest_outbound_date = end_date - min_days` inclusive
(app.py lines 302, 309-311, 389). -/
def returnDates (cfg : SearchConfig) : List Int :=
  intRange cfg.startD (cfg.endD - cfg.min_days)

/-- One iteration of the return-family date loop: for weekend modes,
non-qualifying outbound days are skipped before any upstream query
(app.py lines 312-315). -/
def returnDateStep (cfg : SearchConfig) (api : ReturnApi) (mode : Option WeekendMode)
    (st : ReturnState) (d : Int) : ReturnState :=
  match mode with
  | some m =>
    if is_valid_weekend_day { day := d, minuteOfDay := 0 } m true then
      cfg.origin_codes.foldl (fun st2 o => returnBatch cfg api mode d o st2) st
    else st
  | none => cfg.origin_codes.foldl (fun st2 o => returnBatch cfg api mode d o st2) st

/-- The return-family branch of `generate_results` (app.py lines 301-400),
ending with the optional `NO_FLIGHTS` sentinel and the mandatory `END`
sentinel of lines 392-400. -/
def runReturn (cfg : SearchConfig) (api : ReturnApi) : List Event :=
  let st := (returnDates cfg).foldl (returnDateStep cfg api (weekendModeOf cfg.tripType))
    { flights_found := false, events := [] }
  st.events ++ (if st.flights_found then [] else [Event.noFlights]) ++ [Event.endOfStream]

/-- Generator `generate_results` (app.py lines 230-400), as the full list of events
yielded for a request: the one-way branch for `tripType == 'oneWay'`, the
return-family branch for every other trip type. -/
def generate_results (cfg : SearchConfig) (apiOne : OneWayApi) (apiRet : ReturnApi) :
    List Event :=
  if cfg.tripType = some "oneWay" then runOneWay cfg apiOne else runReturn cfg apiRet

/-- Concatenation of a list of lists (used to spell out the survivors of a
whole run). -/
def catLists {α : Type} : List (List α) → List α
  | [] => []
  | l :: ls => l ++ catLists ls

/-- The survivors of one return-family `(date, origin)` query: the
candidates that pass the filter; nothing survives a failed query. -/
def returnBatchSurvivors (cfg : SearchConfig) (api : ReturnApi) (mode : Option WeekendMode)
    (d : Int) (o : String) : List Trip :=
  match api o d d (d + cfg.min_days) (min cfg.endD (d + cfg.max_days)) with
  | Except.error _ => []
  | Except.ok trips => trips.filter (returnFilter cfg mode)

/-- The survivors contributed by one return-family date (empty when the
weekend skip applies). -/
def returnDateSurvivors (cfg : SearchConfig) (api : ReturnApi) (mode : Option WeekendMode)
    (d : Int) : List Trip :=
  match mode with
  | some m =>
    if is_valid_weekend_day { day := d, minuteOfDay := 0 } m true then
      catLists (cfg.origin_codes.map (returnBatchSurvivors cfg api mode d))
    else []
  | none => catLists (cfg.origin_codes.map (returnBatchSurvivors cfg api mode d))

/-- Every candidate that survived filtering across an entire return-family
run. -/
def returnRunSurvivors (cfg : SearchConfig) (api : ReturnApi) : List Trip :=
  catLists ((returnDates cfg).map (returnDateSurvivors cfg api (weekendModeOf cfg.tripType)))

/-- The survivors of one one-way `(date, origin)` query (before
deduplication). -/
def oneWayBatchSurvivors (cfg : SearchConfig) (api : OneWayApi) (d : Int) (o : String) :
    List Flight :=
  match api o d (d + 1) with
  | Except.error _ => []
  | Except.ok trips => trips.filter (oneWayFilter cfg)

/-- Every candidate that survived filtering across an entire one-way run
(before deduplication), in processing order. -/
def oneWayRunSurvivors (cfg : SearchConfig) (api : OneWayApi) : List Flight :=
  catLists ((oneWayDates cfg).map
    (fun d => catLists (cfg.origin_codes.map (oneWayBatchSurvivors cfg api d))))

/-- The dedup key carried by a one-way result event (junk on other events;
one-way streams contain only one-way result events). -/
def eventKeyD : Event → String
  | Event.oneWayResult f _ => flightId f
  | _ => ""

/-- Is this event a flight-result event (as opposed to a sentinel)? -/
def isResultEvent : Event → Bool
  | Event.oneWayResult _ _ => true
  | Event.returnResult _ _ => true
  | _ => false

/-- The `totalPrice` field of a result event (0 on sentinels). -/
def eventTotal : Event → Rat
  | Event.oneWayResult _ tp => tp
  | Event.returnResult _ tp => tp
  | _ => 0

/-- The one-way flights carried by a list of events. -/
def oneWayPayloads (l : List Event) : List Flight :=
  l.filterMap (fun e => match e with | Event.oneWayResult f _ => some f | _ => none)

/-- The return-family pairs carried by a list of events. -/
def returnPayloads (l : List Event) : List Trip :=
  l.filterMap (fun e => match e with | Event.returnResult t _ => some t | _ => none)

/-- Does a one-way result event carry exactly this
(origin, destination, departureTime) key? -/
def eventHasKey (o dst : String) (dep : DateTime) : Event → Bool
  | Event.oneWayResult f _ => f.origin == o && f.destination == dst && f.departureTime == dep
  | _ => false

/-- Does a flight carry exactly this (origin, destination, departureTime)
key? -/
def flightHasKey (o dst : String) (dep : DateTime) (f : Flight) : Bool :=
  f.origin == o && f.destination == dst && f.departureTime == dep

/-! Concrete fixtures used by the closed evaluation theorems and
witnesses.  `exFlight` is the §8 example of the specification: a single
DUB→BCN flight priced 80 on the first searched day. -/

def exFlight : Flight :=
  { departureTime := { day := 0, minuteOfDay := 600 }
    arrivalTime := { day := 0, minuteOfDay := 735 }
    flightNumber := "FR6875"
    price := 80
    currency := "EUR"
    origin := "DUB"
    originFull := "Dublin"
    destination := "BCN"
    destinationFull := "Barcelona, Spain" }

def exOneWayConfig : SearchConfig :=
  { tripType := some "oneWay"
    startD := 0
    endD := 1
    maximum_price := 100
    min_days := 0
    max_days := 0
    origin_codes := ["DUB"]
    wanted_countries := ["Spain"]
    adults := 1
    teens := 0
    children := 0
    total_passengers := 1 }

def exOneWayApi : OneWayApi := fun o d _ =>
  if o = "DUB" ∧ d = 0 then Except.ok [exFlight] else Except.ok []

def exReturnApiEmpty : ReturnApi := fun _ _ _ _ _ => Except.ok []

def exOneWayApiEmpty : OneWayApi := fun _ _ _ => Except.ok []

/-- Outbound leg of the weekend example: departs on day 4, a Friday. -/
def exOutLeg : Flight :=
  { departureTime := { day := 4, minuteOfDay := 540 }
    arrivalTime := { day := 4, minuteOfDay := 675 }
    flightNumber := "FR6875"
    price := 40
    currency := "EUR"
    origin := "DUB"
    originFull := "Dublin"
    destination := "BCN"
    destinationFull := "Barcelona, Spain" }

/-- Inbound leg of the weekend example: departs on day 6, a Sunday. -/
def exInLeg : Flight :=
  { departureTime := { day := 6, minuteOfDay := 540 }
    arrivalTime := { day := 6, minuteOfDay := 675 }
    flightNumber := "FR6876"
    price := 40
    currency := "EUR"
    origin := "BCN"
    originFull := "Barcelona, Spain"
    destination := "DUB"
    destinationFull := "Dublin" }

def exTrip : Trip := { totalPrice := 80, outbound := exOutLeg, inbound := exInLeg }

def exWeekendConfig : SearchConfig :=
  { tripType := some "weekend"
    startD := 0
    endD := 7
    maximum_price := 100
    min_days := 1
    max_days := 3
    origin_codes := ["DUB"]
    wanted_countries := ["Spain"]
    adults := 1
    teens := 0
    children := 0
    total_passengers := 1 }

def exReturnApi : ReturnApi := fun o d _ _ _ =>
  if o = "DUB" ∧ d = 4 then Except.ok [exTrip] else Except.ok []

def exReturnConfig : SearchConfig :=
  { tripType := some "return"
    startD := 0
    endD := 7
    maximum_price := 100
    min_days := 1
    max_days := 3
    origin_codes := ["DUB"]
    wanted_countries := ["Spain"]
    adults := 1
    teens := 0
    children := 0
    total_passengers := 1 }

/-- A return-family upstream that fails on the (day 0, DUB) pair and
returns the example trip on (day 1, DUB). -/
def exReturnApiFail : ReturnApi := fun o d _ _ _ =>
  if o = "DUB" ∧ d = 0 then Except.error ()
  else if o = "DUB" ∧ d = 1 then Except.ok [exTrip] else Except.ok []

/-- A one-way upstream that fails on the (day 0, DUB) pair. -/
def exOneWayApiFail : OneWayApi := fun o d _ =>
  if o = "DUB" ∧ d = 0 then Except.error () else Except.ok []

/-- A syntactically valid one-way request that omits the stay-window
parameters (`minDays`, `maxDays`) — which the specification does not
require for one-way trips. -/
def exOneWayRequest : RawRequest :=
  { tripType := some "oneWay"
    startDate := some "2024-06-01"
    endDate := some "2024-06-02"
    maxPrice := some "100"
    minDays := none
    maxDays := none
    originAirports := some "DUB"
    wantedCountries := some "Spain"
    adults := some "1"
    teens := some "0"
    children := some "0" }

/-- A fully valid return request. -/
def exReturnRequest : RawRequest :=
  { tripType := some "return"
    startDate := some "2024-06-01"
    endDate := some "2024-06-08"
    maxPrice := some "100"
    minDays := some "1"
    maxDays := some "3"
    originAirports := some "DUB"
    wantedCountries := some "Spain"
    adults := some "1"
    teens := some "0"
    children := some "0" }

/-- The configuration `search_flights` builds from `exReturnRequest`. -/
def exReturnRequestConfig : SearchConfig :=
  { tripType := some "return"
    startD := toOrdinal 2024 6 1
    endD := toOrdinal 2024 6 8
    maximum_price := 100
    min_days := 1
    max_days := 3
    origin_codes := ["DUB"]
    wanted_countries := ["Spain"]
    adults := 1
    teens := 0
    children := 0
    total_passengers := 1 }

/-- A return-family configuration whose window cannot fit the minimum stay:
`endD - min_days < startD`. -/
def exEmptyWindowConfig : SearchConfig :=
  { tripType := some "return"
    startD := 0
    endD := 1
    maximum_price := 100
    min_days := 5
    max_days := 7
    origin_codes := ["DUB"]
    wanted_countries := ["Spain"]
    adults := 1
    teens := 0
    children := 0
    total_passengers := 1 }

/-- A request whose `wantedCountries` parameter is absent. -/
def exNoCountriesRequest : RawRequest :=
  { tripType := some "return"
    startDate := some "2024-06-01"
    endDate := some "2024-06-08"
    maxPrice := some "100"
    minDays := some "1"
    maxDays := some "3"
    originAirports := some "DUB"
    wantedCountries := none
    adults := some "1"
    teens := some "0"
    children := some "0" }

/-- Loop invariant of the one-way generator: emitted dedup keys are
distinct, `seen_flights` holds exactly the emitted keys, and every event is
a one-way result serialized from a candidate that passed the filter. -/
def OneWayInv (cfg : SearchConfig) (st : OneWayState) : Prop :=
  (st.events.map eventKeyD).Nodup
  ∧ (∀ k, k ∈ st.seen ↔ k ∈ st.events.map eventKeyD)
  ∧ (∀ e ∈ st.events, ∃ f, e = emitFlightEvent cfg f ∧ oneWayFilter cfg f = true)

/-- Loop invariant of the return-family generator: every accumulated event
is a return result serialized from a candidate that passed the filter. -/
def ReturnInv (cfg : SearchConfig) (mode : Option WeekendMode) (st : ReturnState) : Prop :=
  ∀ e ∈ st.events, ∃ t, e = emitTripEvent cfg t ∧ returnFilter cfg mode t = true

/-! ### Generic helper lemmas -/

theorem foldl_invariant {σ α : Type} (P : σ → Prop) (f : σ → α → σ) (l : List α) (s : σ)
    (h0 : P s) (hstep : ∀ t a, a ∈ l → P t → P (f t a)) : P (l.foldl f s) := by
  induction l generalizing s with
  | nil => exact h0
  | cons a l ih =>
    exact ih _ (hstep s a (List.mem_cons_self a l) h0)
      (fun t b hb => hstep t b (List.mem_cons_of_mem a hb))

theorem foldl_ext {σ α : Type} (f g : σ → α → σ) (h : ∀ s a, f s a = g s a) :
    ∀ (l : List α) (s : σ), l.foldl f s = l.foldl g s := by
  intro l
  induction l with
  | nil => intro s; rfl
  | cons a l ih => intro s; simp only [List.foldl_cons, h, ih]

theorem mem_catLists {α : Type} (x : α) :
    ∀ ls : List (List α), x ∈ catLists ls ↔ ∃ l ∈ ls, x ∈ l := by
  intro ls
  induction ls with
  | nil => simp [catLists]
  | cons l ls ih => simp [catLists, ih]

theorem catLists_eq_nil {α : Type} :
    ∀ ls : List (List α), catLists ls = [] ↔ ∀ l ∈ ls, l = [] := by
  intro ls
  induction ls with
  | nil => simp [catLists]
  | cons l ls ih => simp [catLists, ih]

theorem mem_intRange {lo hi d : Int} : d ∈ intRange lo hi ↔ lo ≤ d ∧ d ≤ hi := by
  unfold intRange
  rw [List.mem_map]
  constructor
  · rintro ⟨i, hlt, rfl⟩
    rw [List.mem_range] at hlt
    omega
  · intro h
    refine ⟨(d - lo).toNat, ?_, ?_⟩
    · rw [List.mem_range]; omega
    · omega

theorem intRange_pairwise (lo hi : Int) : (intRange lo hi).Pairwise (· < ·) := by
  unfold intRange
  rw [List.pairwise_map]
  refine (List.pairwise_lt_range _).imp ?_
  intro a b h
  omega

theorem intRange_eq_nil {lo hi : Int} (h : hi < lo) : intRange lo hi = [] := by
  unfold intRange
  have h1 : (hi + 1 - lo).toNat = 0 := by omega
  rw [h1]
  rfl

theorem intRange_cons {lo hi : Int} (h : lo ≤ hi) :
    intRange lo hi = lo :: intRange (lo + 1) hi := by
  unfold intRange
  have h1 : (hi + 1 - lo).toNat = (hi + 1 - (lo + 1)).toNat + 1 := by omega
  rw [h1, List.range_succ_eq_map]
  simp only [List.map_cons, List.map_map]
  refine congrArg₂ _ (by omega) (List.map_congr_left ?_)
  intro i _
  simp only [Function.comp_apply]
  omega

theorem intRange_head {lo hi : Int} (h : lo ≤ hi) : (intRange lo hi).head? = some lo := by
  rw [intRange_cons h]
  rfl

theorem intRange_getLast {lo hi : Int} (h : lo ≤ hi) :
    (intRange lo hi).getLast? = some hi := by
  unfold intRange
  have h1 : (hi + 1 - lo).toNat = (hi - lo).toNat + 1 := by omega
  rw [h1, List.range_succ, List.map_append]
  simp only [List.map_cons, List.map_nil, List.getLast?_concat]
  congr 1
  omega

/-! ### String helper lemmas -/

theorem strContainsL_nil (l : List Char) : strContainsL [] l = true := by
  cases l <;> simp [strContainsL, strStartsWithL]

theorem strContains_nil (s : String) : strContains "" s = true := by
  have h := strContainsL_nil s.data
  simpa [strContains] using h

theorem splitOnCharL_ne_nil (sep : Char) : ∀ cs, splitOnCharL sep cs ≠ [] := by
  intro cs
  induction cs with
  | nil => simp [splitOnCharL]
  | cons c rest ih =>
    simp only [splitOnCharL]
    split
    · simp
    · split
      · simp
      · simp

theorem splitComma_ne_nil (s : String) : splitComma s ≠ [] := by
  unfold splitComma
  intro h
  exact splitOnCharL_ne_nil ',' s.data (List.map_eq_nil_iff.mp h)

/-! ### Stable-sort lemmas -/

theorem mem_insertByKey {α : Type} (key : α → Rat) (a x : α) :
    ∀ l, x ∈ insertByKey key a l ↔ x = a ∨ x ∈ l := by
  intro l
  induction l with
  | nil => simp [insertByKey]
  | cons b l ih =>
    simp only [insertByKey]
    split
    · simp only [List.mem_cons]
    · simp only [List.mem_cons, ih]
      tauto

theorem mem_sortByKey {α : Type} (key : α → Rat) (x : α) :
    ∀ l, x ∈ sortByKey key l ↔ x ∈ l := by
  intro l
  induction l with
  | nil => simp [sortByKey]
  | cons a l ih =>
    simp only [sortByKey, mem_insertByKey, ih, List.mem_cons]

theorem pairwise_insertByKey {α : Type} (key : α → Rat) (a : α) {l : List α}
    (h : l.Pairwise (fun x y => key x ≤ key y)) :
    (insertByKey key a l).Pairwise (fun x y => key x ≤ key y) := by
  induction l with
  | nil => simp [insertByKey]
  | cons b l ih =>
    rw [List.pairwise_cons] at h
    obtain ⟨hb, hl⟩ := h
    simp only [insertByKey]
    split
    · rename_i hab
      rw [List.pairwise_cons]
      refine ⟨?_, List.pairwise_cons.mpr ⟨hb, hl⟩⟩
      intro x hx
      rcases List.mem_cons.mp hx with rfl | hx
      · exact hab
      · exact le_trans hab (hb x hx)
    · rename_i hab
      rw [List.pairwise_cons]
      refine ⟨?_, ih hl⟩
      intro x hx
      rcases (mem_insertByKey key a x l).mp hx with rfl | hx
      · exact le_of_not_le hab
      · exact hb x hx

theorem pairwise_sortByKey {α : Type} (key : α → Rat) :
    ∀ l, (sortByKey key l).Pairwise (fun x y => key x ≤ key y) := by
  intro l
  induction l with
  | nil => simp [sortByKey]
  | cons a l ih => exact pairwise_insertByKey key a ih

theorem filter_insertByKey {α : Type} (key : α → Rat) (a : α) (p : Rat) :
    ∀ l, (insertByKey key a l).filter (fun x => decide (key x = p)) =
      (if key a = p then [a] else []) ++ l.filter (fun x => decide (key x = p)) := by
  intro l
  induction l with
  | nil =>
    simp only [insertByKey, List.filter, List.append_nil]
    by_cases hka : key a = p <;> simp [hka]
  | cons b l ih =>
    simp only [insertByKey]
    split
    · rename_i hab
      rw [List.filter_cons, List.filter_cons]
      by_cases hka : key a = p <;> simp [hka, List.filter_cons]
    · rename_i hab
      rw [List.filter_cons, ih]
      by_cases hka : key a = p
      · have hkb : ¬ key b = p := by
          have hlt : key b < key a := lt_of_not_le hab
          rw [hka] at hlt
          exact ne_of_lt hlt
        simp [hka, hkb]
      · by_cases hkb : key b = p <;> simp [hka, hkb]

theorem filter_sortByKey {α : Type} (key : α → Rat) (p : Rat) :
    ∀ l, (sortByKey key l).filter (fun x => decide (key x = p)) =
      l.filter (fun x => decide (key x = p)) := by
  intro l
  induction l with
  | nil => rfl
  | cons a l ih =>
    simp only [sortByKey]
    rw [filter_insertByKey, ih, List.filter_cons]
    by_cases hka : key a = p <;> simp [hka]

/-! ### Characterization of the one-way dedup-and-emit loop -/

theorem emitOneWay_spec (cfg : SearchConfig) :
    ∀ (l : List Flight) (seen : List String),
      ∃ sub : List Flight,
        sub.Sublist l
        ∧ (emitOneWay cfg l seen).2 = sub.map (emitFlightEvent cfg)
        ∧ (sub.map flightId).Nodup
        ∧ (∀ k ∈ sub.map flightId, k ∉ seen)
        ∧ (∀ k, k ∈ (emitOneWay cfg l seen).1 ↔ k ∈ seen ∨ k ∈ l.map flightId)
        ∧ (∀ k ∈ l.map flightId, k ∈ seen ∨ k ∈ sub.map flightId) := by
  intro l
  induction l with
  | nil =>
    intro seen
    exact ⟨[], List.Sublist.refl _, rfl, List.nodup_nil, by simp, by simp [emitOneWay], by simp⟩
  | cons f rest ih =>
    intro seen
    by_cases hf : flightId f ∈ seen
    · obtain ⟨sub, hsub, hev, hnd, hns, hseen, hcov⟩ := ih seen
      have hred : emitOneWay cfg (f :: rest) seen = emitOneWay cfg rest seen := by
        simp only [emitOneWay, if_pos hf]
      refine ⟨sub, hsub.cons f, ?_, hnd, hns, ?_, ?_⟩
      · rw [hred]; exact hev
      · intro k
        rw [hred, hseen k]
        simp only [List.map_cons, List.mem_cons]
        constructor
        · rintro (h | h)
          · exact Or.inl h
          · exact Or.inr (Or.inr h)
        · rintro (h | h | h)
          · exact Or.inl h
          · exact Or.inl (h ▸ hf)
          · exact Or.inr h
      · intro k hk
        simp only [List.map_cons, List.mem_cons] at hk
        rcases hk with rfl | hk
        · exact Or.inl hf
        · exact hcov k hk
    · obtain ⟨sub, hsub, hev, hnd, hns, hseen, hcov⟩ := ih (flightId f :: seen)
      have hred : emitOneWay cfg (f :: rest) seen =
          ((emitOneWay cfg rest (flightId f :: seen)).1,
           emitFlightEvent cfg f :: (emitOneWay cfg rest (flightId f :: seen)).2) := by
        simp only [emitOneWay, if_neg hf]
      refine ⟨f :: sub, hsub.cons₂ f, ?_, ?_, ?_, ?_, ?_⟩
      · rw [hred]
        simp only [List.map_cons]
        exact congrArg _ hev
      · simp only [List.map_cons, List.nodup_cons]
        refine ⟨?_, hnd⟩
        intro hmem
        exact hns _ hmem (List.mem_cons_self _ _)
      · intro k hk
        simp only [List.map_cons, List.mem_cons] at hk
        rcases hk with rfl | hk
        · exact hf
        · intro hks
          exact hns k hk (List.mem_cons_of_mem _ hks)
      · intro k
        rw [hred]
        simp only [hseen k, List.mem_cons, List.map_cons]
        tauto
      · intro k hk
        simp only [List.map_cons, List.mem_cons] at hk ⊢
        rcases hk with rfl | hk
        · exact Or.inr (Or.inl rfl)
        · rcases hcov k hk with hx | hx
          · rcases List.mem_cons.mp hx with rfl | hx
            · exact Or.inr (Or.inl rfl)
            · exact Or.inl hx
          · exact Or.inr (Or.inr hx)

theorem eventKeyD_comp_emitFlightEvent (cfg : SearchConfig) :
    (fun f => eventKeyD (emitFlightEvent cfg f)) = flightId := rfl

theorem oneWayBatch_inv (cfg : SearchConfig) (api : OneWayApi) (d : Int) (o : String)
    (st : OneWayState) (h : OneWayInv cfg st) : OneWayInv cfg (oneWayBatch cfg api d o st) := by
  unfold oneWayBatch
  cases hapi : api o d (d + 1) with
  | error e => exact h
  | ok trips =>
    by_cases htr : trips = []
    · simp only [if_pos htr]
      exact h
    · simp only [if_neg htr]
      obtain ⟨hnd, hseen, hres⟩ := h
      obtain ⟨sub, hsub, hev, hsnd, hns, hseen2, hcov⟩ :=
        emitOneWay_spec cfg (sortByKey Flight.price (trips.filter (oneWayFilter cfg))) st.seen
      have hsubkeys : (emitOneWay cfg (sortByKey Flight.price (trips.filter (oneWayFilter cfg)))
          st.seen).2.map eventKeyD = sub.map flightId := by
        rw [hev, List.map_map]
        rfl
      refine ⟨?_, ?_, ?_⟩
      · rw [List.map_append, List.nodup_append, hsubkeys]
        refine ⟨hnd, hsnd, ?_⟩
        intro k hk1 hk2
        exact hns k hk2 ((hseen k).mpr hk1)
      · intro k
        rw [List.map_append, List.mem_append, hsubkeys, hseen2 k]
        constructor
        · rintro (hk | hk)
          · exact Or.inl ((hseen k).mp hk)
          · rcases hcov k hk with hx | hx
            · exact Or.inl ((hseen k).mp hx)
            · exact Or.inr hx
        · rintro (hk | hk)
          · exact Or.inl ((hseen k).mpr hk)
          · exact Or.inr ((List.Sublist.map flightId hsub).subset hk)
      · intro e he
        rcases List.mem_append.mp he with he | he
        · exact hres e he
        · rw [hev] at he
          obtain ⟨f, hf, rfl⟩ := List.mem_map.mp he
          refine ⟨f, rfl, ?_⟩
          have hf2 : f ∈ trips.filter (oneWayFilter cfg) :=
            (mem_sortByKey Flight.price f _).mp (hsub.subset hf)
          exact (List.mem_filter.mp hf2).2

theorem runOneWay_inv (cfg : SearchConfig) (api : OneWayApi) :
    ∃ st : OneWayState,
      ((oneWayDates cfg).foldl
        (fun st d => cfg.origin_codes.foldl (fun st2 o => oneWayBatch cfg api d o st2) st)
        { seen := [], flights_found := false, events := [] }) = st ∧ OneWayInv cfg st := by
  refine ⟨_, rfl, ?_⟩
  apply foldl_invariant (OneWayInv cfg)
  · exact ⟨List.nodup_nil, by simp, by simp⟩
  · intro st d _ hst
    apply foldl_invariant (OneWayInv cfg)
    · exact hst
    · intro st2 o _ hst2
      exact oneWayBatch_inv cfg api d o st2 hst2

theorem oneWayBatch_seen (cfg : SearchConfig) (api : OneWayApi) (d : Int) (o : String)
    (st : OneWayState) :
    ∀ k, k ∈ (oneWayBatch cfg api d o st).seen ↔
      k ∈ st.seen ∨ k ∈ (oneWayBatchSurvivors cfg api d o).map flightId := by
  intro k
  unfold oneWayBatch oneWayBatchSurvivors
  cases hapi : api o d (d + 1) with
  | error e => simp
  | ok trips =>
    by_cases htr : trips = []
    · subst htr
      simp
    · simp only [if_neg htr]
      obtain ⟨sub, hsub, hev, hsnd, hns, hseen2, hcov⟩ :=
        emitOneWay_spec cfg (sortByKey Flight.price (trips.filter (oneWayFilter cfg))) st.seen
      rw [hseen2 k]
      constructor
      · rintro (hk | hk)
        · exact Or.inl hk
        · right
          obtain ⟨f, hf, rfl⟩ := List.mem_map.mp hk
          exact List.mem_map_of_mem _ ((mem_sortByKey _ f _).mp hf)
      · rintro (hk | hk)
        · exact Or.inl hk
        · right
          obtain ⟨f, hf, rfl⟩ := List.mem_map.mp hk
          exact List.mem_map_of_mem _ ((mem_sortByKey _ f _).mpr hf)

theorem oneWayOrigins_seen (cfg : SearchConfig) (api : OneWayApi) (d : Int) :
    ∀ (os : List String) (st : OneWayState) (k : String),
      k ∈ (os.foldl (fun st2 o => oneWayBatch cfg api d o st2) st).seen ↔
        k ∈ st.seen ∨
          k ∈ (catLists (os.map (oneWayBatchSurvivors cfg api d))).map flightId := by
  intro os
  induction os with
  | nil =>
    intro st k
    simp [catLists]
  | cons o os ih =>
    intro st k
    rw [List.foldl_cons, ih, oneWayBatch_seen]
    simp only [List.map_cons, catLists, List.map_append, List.mem_append]
    tauto

theorem oneWayDatesFold_seen (cfg : SearchConfig) (api : OneWayApi) :
    ∀ (ds : List Int) (st : OneWayState) (k : String),
      k ∈ (ds.foldl
            (fun st d => cfg.origin_codes.foldl (fun st2 o => oneWayBatch cfg api d o st2) st)
            st).seen ↔
        k ∈ st.seen ∨
          k ∈ (catLists (ds.map
            (fun d => catLists (cfg.origin_codes.map (oneWayBatchSurvivors cfg api d))))).map
              flightId := by
  intro ds
  induction ds with
  | nil =>
    intro st k
    simp [catLists]
  | cons d ds ih =>
    intro st k
    rw [List.foldl_cons, ih, oneWayOrigins_seen]
    simp only [List.map_cons, catLists, List.map_append, List.mem_append]
    tauto

/-! ### Return-family loop lemmas -/

theorem returnBatch_inv (cfg : SearchConfig) (api : ReturnApi) (mode : Option WeekendMode)
    (d : Int) (o : String) (st : ReturnState) (h : ReturnInv cfg mode st) :
    ReturnInv cfg mode (returnBatch cfg api mode d o st) := by
  unfold returnBatch
  cases hapi : api o d d (d + cfg.min_days) (min cfg.endD (d + cfg.max_days)) with
  | error e => exact h
  | ok trips =>
    intro e he
    rcases List.mem_append.mp he with he | he
    · exact h e he
    · unfold returnBatchEvents at he
      obtain ⟨t, ht, rfl⟩ := List.mem_map.mp he
      refine ⟨t, rfl, ?_⟩
      have ht2 := (mem_sortByKey Trip.totalPrice t _).mp ht
      exact (List.mem_filter.mp ht2).2

theorem returnDateStep_inv (cfg : SearchConfig) (api : ReturnApi) (mode : Option WeekendMode)
    (st : ReturnState) (d : Int) (h : ReturnInv cfg mode st) :
    ReturnInv cfg mode (returnDateStep cfg api mode st d) := by
  cases mode with
  | none =>
    show ReturnInv cfg none
      (cfg.origin_codes.foldl (fun st2 o => returnBatch cfg api none d o st2) st)
    apply foldl_invariant (ReturnInv cfg none) _ _ _ h
    intro st2 o _ h2
    exact returnBatch_inv cfg api none d o st2 h2
  | some m =>
    show ReturnInv cfg (some m)
      (if is_valid_weekend_day { day := d, minuteOfDay := 0 } m true then
        cfg.origin_codes.foldl (fun st2 o => returnBatch cfg api (some m) d o st2) st
      else st)
    by_cases hw : is_valid_weekend_day { day := d, minuteOfDay := 0 } m true
    · rw [if_pos hw]
      apply foldl_invariant (ReturnInv cfg (some m)) _ _ _ h
      intro st2 o _ h2
      exact returnBatch_inv cfg api (some m) d o st2 h2
    · rw [if_neg hw]
      exact h

theorem returnFold_inv (cfg : SearchConfig) (api : ReturnApi) (mode : Option WeekendMode)
    (ds : List Int) (st : ReturnState) (h : ReturnInv cfg mode st) :
    ReturnInv cfg mode (ds.foldl (returnDateStep cfg api mode) st) := by
  apply foldl_invariant (ReturnInv cfg mode) _ _ _ h
  intro st2 d _ h2
  exact returnDateStep_inv cfg api mode st2 d h2

theorem isEmpty_append {α : Type} (l₁ l₂ : List α) :
    (l₁ ++ l₂).isEmpty = (l₁.isEmpty && l₂.isEmpty) := by
  cases l₁ <;> simp

theorem returnBatch_found (cfg : SearchConfig) (api : ReturnApi) (mode : Option WeekendMode)
    (d : Int) (o : String) (st : ReturnState) :
    (returnBatch cfg api mode d o st).flights_found =
      (st.flights_found || !(returnBatchSurvivors cfg api mode d o).isEmpty) := by
  unfold returnBatch returnBatchSurvivors
  cases hapi : api o d d (d + cfg.min_days) (min cfg.endD (d + cfg.max_days)) with
  | error e => simp
  | ok trips => rfl

theorem returnOrigins_found (cfg : SearchConfig) (api : ReturnApi) (mode : Option WeekendMode)
    (d : Int) :
    ∀ (os : List String) (st : ReturnState),
      (os.foldl (fun st2 o => returnBatch cfg api mode d o st2) st).flights_found =
        (st.flights_found ||
          !(catLists (os.map (returnBatchSurvivors cfg api mode d))).isEmpty) := by
  intro os
  induction os with
  | nil =>
    intro st
    simp [catLists]
  | cons o os ih =>
    intro st
    rw [List.foldl_cons, ih, returnBatch_found]
    simp only [List.map_cons, catLists, isEmpty_append]
    cases st.flights_found <;> cases hx : (returnBatchSurvivors cfg api mode d o).isEmpty <;>
      simp

theorem returnDates_found (cfg : SearchConfig) (api : ReturnApi) (mode : Option WeekendMode) :
    ∀ (ds : List Int) (st : ReturnState),
      (ds.foldl (returnDateStep cfg api mode) st).flights_found =
        (st.flights_found ||
          !(catLists (ds.map (returnDateSurvivors cfg api mode))).isEmpty) := by
  intro ds
  induction ds with
  | nil =>
    intro st
    simp [catLists]
  | cons d ds ih =>
    intro st
    rw [List.foldl_cons, ih]
    have hstep : (returnDateStep cfg api mode st d).flights_found =
        (st.flights_found || !(returnDateSurvivors cfg api mode d).isEmpty) := by
      cases mode with
      | none => exact returnOrigins_found cfg api none d cfg.origin_codes st
      | some m =>
        show (if is_valid_weekend_day { day := d, minuteOfDay := 0 } m true then
            cfg.origin_codes.foldl (fun st2 o => returnBatch cfg api (some m) d o st2) st
          else st).flights_found =
          (st.flights_found ||
            !(if is_valid_weekend_day { day := d, minuteOfDay := 0 } m true then
                catLists (cfg.origin_codes.map (returnBatchSurvivors cfg api (some m) d))
              else []).isEmpty)
        by_cases hw : is_valid_weekend_day { day := d, minuteOfDay := 0 } m true
        · rw [if_pos hw, if_pos hw]
          exact returnOrigins_found cfg api (some m) d cfg.origin_codes st
        · rw [if_neg hw, if_neg hw]
          simp
    rw [hstep]
    simp only [List.map_cons, catLists, isEmpty_append]
    cases st.flights_found <;> cases hx : (returnDateSurvivors cfg api mode d).isEmpty <;> simp

/-! ### Upstream-failure congruence lemmas -/

theorem returnBatch_override (cfg : SearchConfig) (api : ReturnApi) (d0 : Int) (o0 : String)
    (herr : api o0 d0 d0 (d0 + cfg.min_days) (min cfg.endD (d0 + cfg.max_days)) =
      Except.error ()) (mode : Option WeekendMode) (d : Int) (o : String) (st : ReturnState) :
    returnBatch cfg api mode d o st =
      returnBatch cfg
        (fun o d a b c => if o = o0 ∧ d = d0 then Except.ok [] else api o d a b c)
        mode d o st := by
  unfold returnBatch
  by_cases hp : o = o0 ∧ d = d0
  · obtain ⟨rfl, rfl⟩ := hp
    rw [herr]
    cases st with
    | mk ff ev => simp [returnBatchEvents, sortByKey]
  · simp only [if_neg hp]

theorem oneWayBatch_override (cfg : SearchConfig) (api : OneWayApi) (d0 : Int) (o0 : String)
    (herr : api o0 d0 (d0 + 1) = Except.error ()) (d : Int) (o : String) (st : OneWayState) :
    oneWayBatch cfg api d o st =
      oneWayBatch cfg (fun o d b => if o = o0 ∧ d = d0 then Except.ok [] else api o d b)
        d o st := by
  unfold oneWayBatch
  by_cases hp : o = o0 ∧ d = d0
  · obtain ⟨rfl, rfl⟩ := hp
    rw [herr]
    simp
  · simp only [if_neg hp]

theorem runReturn_override (cfg : SearchConfig) (api : ReturnApi) (d0 : Int) (o0 : String)
    (herr : api o0 d0 d0 (d0 + cfg.min_days) (min cfg.endD (d0 + cfg.max_days)) =
      Except.error ()) :
    runReturn cfg api =
      runReturn cfg
        (fun o d a b c => if o = o0 ∧ d = d0 then Except.ok [] else api o d a b c) := by
  unfold runReturn
  have hfold : ∀ (mode : Option WeekendMode),
      (returnDates cfg).foldl (returnDateStep cfg api mode)
          { flights_found := false, events := [] } =
        (returnDates cfg).foldl
          (returnDateStep cfg
            (fun o d a b c => if o = o0 ∧ d = d0 then Except.ok [] else api o d a b c) mode)
          { flights_found := false, events := [] } := by
    intro mode
    apply foldl_ext
    intro s d
    cases mode with
    | none =>
      show cfg.origin_codes.foldl (fun st2 o => returnBatch cfg api none d o st2) s =
        cfg.origin_codes.foldl (fun st2 o => returnBatch cfg _ none d o st2) s
      apply foldl_ext
      intro s2 o
      exact returnBatch_override cfg api d0 o0 herr none d o s2
    | some m =>
      show (if is_valid_weekend_day { day := d, minuteOfDay := 0 } m true then
          cfg.origin_codes.foldl (fun st2 o => returnBatch cfg api (some m) d o st2) s
        else s) =
        (if is_valid_weekend_day { day := d, minuteOfDay := 0 } m true then
          cfg.origin_codes.foldl (fun st2 o => returnBatch cfg _ (some m) d o st2) s
        else s)
      by_cases hw : is_valid_weekend_day { day := d, minuteOfDay := 0 } m true
      · rw [if_pos hw, if_pos hw]
        apply foldl_ext
        intro s2 o
        exact returnBatch_override cfg api d0 o0 herr (some m) d o s2
      · rw [if_neg hw, if_neg hw]
  rw [hfold (weekendModeOf cfg.tripType)]

theorem runOneWay_override (cfg : SearchConfig) (api : OneWayApi) (d0 : Int) (o0 : String)
    (herr : api o0 d0 (d0 + 1) = Except.error ()) :
    runOneWay cfg api =
      runOneWay cfg (fun o d b => if o = o0 ∧ d = d0 then Except.ok [] else api o d b) := by
  unfold runOneWay
  congr 1
  apply foldl_ext
  intro s d
  apply foldl_ext
  intro s2 o
  exact oneWayBatch_override cfg api d0 o0 herr d o s2

/-! ### Result-event helper lemmas -/

theorem returnPayloads_map_emit (cfg : SearchConfig) :
    ∀ l : List Trip, returnPayloads (l.map (emitTripEvent cfg)) = l := by
  intro l
  induction l with
  | nil => rfl
  | cons t l ih =>
    simp only [List.map_cons, returnPayloads, List.filterMap_cons] at ih ⊢
    rw [ih]
    rfl

theorem oneWayPayloads_map_emit (cfg : SearchConfig) :
    ∀ l : List Flight, oneWayPayloads (l.map (emitFlightEvent cfg)) = l := by
  intro l
  induction l with
  | nil => rfl
  | cons f l ih =>
    simp only [List.map_cons, oneWayPayloads, List.filterMap_cons] at ih ⊢
    rw [ih]
    rfl

theorem nodup_const_length_le_one {α : Type} (a : α) :
    ∀ l : List α, l.Nodup → (∀ x ∈ l, x = a) → l.length ≤ 1 := by
  intro l hnd hall
  match l with
  | [] => simp
  | [x] => simp
  | x :: y :: t =>
    exfalso
    have hx := hall x (List.mem_cons_self _ _)
    have hy := hall y (List.mem_cons_of_mem _ (List.mem_cons_self _ _))
    rw [List.nodup_cons] at hnd
    exact hnd.1 (by rw [hx, ← hy]; exact List.mem_cons_self _ _)

theorem runOneWay_result_events (cfg : SearchConfig) (api : OneWayApi) (e : Event)
    (h : e ∈ runOneWay cfg api) :
    ∃ f, e = emitFlightEvent cfg f ∧ oneWayFilter cfg f = true := by
  obtain ⟨st, hst, hinv⟩ := runOneWay_inv cfg api
  unfold runOneWay at h
  rw [hst] at h
  exact hinv.2.2 e h

theorem runReturn_mem_decompose (cfg : SearchConfig) (api : ReturnApi) (e : Event)
    (h : e ∈ runReturn cfg api) :
    (∃ t, e = emitTripEvent cfg t
      ∧ returnFilter cfg (weekendModeOf cfg.tripType) t = true)
    ∨ e = Event.noFlights ∨ e = Event.endOfStream := by
  unfold runReturn at h
  have hinv : ReturnInv cfg (weekendModeOf cfg.tripType)
      ((returnDates cfg).foldl (returnDateStep cfg api (weekendModeOf cfg.tripType))
        { flights_found := false, events := [] }) := by
    apply returnFold_inv
    intro e' he'
    simp at he'
  rcases List.mem_append.mp h with h1 | h1
  · rcases List.mem_append.mp h1 with h2 | h2
    · exact Or.inl (hinv e h2)
    · right
      left
      rcases hx : ((returnDates cfg).foldl (returnDateStep cfg api (weekendModeOf cfg.tripType))
          { flights_found := false, events := [] }).flights_found with _ | _ <;>
        rw [hx] at h2 <;> simp at h2
      exact h2
  · right
    right
    simpa using h1

theorem runReturn_result_events (cfg : SearchConfig) (api : ReturnApi) (t : Trip) (tp : Rat)
    (h : Event.returnResult t tp ∈ runReturn cfg api) :
    tp = t.totalPrice * (cfg.total_passengers : Rat)
    ∧ returnFilter cfg (weekendModeOf cfg.tripType) t = true := by
  rcases runReturn_mem_decompose cfg api _ h with ⟨t2, ht2, hfil⟩ | he | he
  · unfold emitTripEvent at ht2
    injection ht2 with h1 h2
    subst h1
    exact ⟨h2, hfil⟩
  · exact absurd he (by simp)
  · exact absurd he (by simp)

theorem search_flights_stream_inversion (req : RawRequest) (cfg : SearchConfig)
    (h : search_flights req = SearchResponse.stream cfg) :
    cfg.total_passengers = cfg.adults + cfg.teens + cfg.children
    ∧ 1 ≤ cfg.adults ∧ 0 ≤ cfg.teens ∧ 0 ≤ cfg.children := by
  unfold search_flights at h
  repeat' split at h
  all_goals try simp_all
  subst h
  refine ⟨rfl, ?_, ?_, ?_⟩
  · rcases hra : req.adults with _ | s <;> simp_all
  · rcases hrt : req.teens with _ | s <;> simp_all
  · rcases hrc : req.children with _ | s <;> simp_all

/-- The return-family branch, by contrast, always closes the stream with
exactly one END sentinel as its final event (app.py line 400). -/
theorem runReturn_end_sentinel (cfg : SearchConfig) (api : ReturnApi) :
    (runReturn cfg api).getLast? = some Event.endOfStream
    ∧ (runReturn cfg api).count Event.endOfStream = 1 := by
  have hinv : ReturnInv cfg (weekendModeOf cfg.tripType)
      ((returnDates cfg).foldl (returnDateStep cfg api (weekendModeOf cfg.tripType))
        { flights_found := false, events := [] }) := by
    apply returnFold_inv
    intro e he
    simp at he
  set final := (returnDates cfg).foldl (returnDateStep cfg api (weekendModeOf cfg.tripType))
    { flights_found := false, events := [] } with hfinal
  have hrun : runReturn cfg api =
      final.events ++
        ((if final.flights_found then [] else [Event.noFlights]) ++ [Event.endOfStream]) := by
    unfold runReturn
    rw [List.append_assoc]
  have hne : Event.endOfStream ∉ final.events := by
    intro hmem
    obtain ⟨t, ht, _⟩ := hinv _ hmem
    simp [emitTripEvent] at ht
  constructor
  · rw [hrun, ← List.append_assoc, List.getLast?_concat]
  · rw [hrun, List.count_append, List.count_append]
    have h1 : final.events.count Event.endOfStream = 0 := List.count_eq_zero.mpr hne
    have h2 : (if final.flights_found then ([] : List Event)
        else [Event.noFlights]).count Event.endOfStream = 0 := by
      cases hx : final.flights_found <;> simp
    rw [h1, h2]
    simp

/-! ### Claim theorems -/

unseal Rat.mul in
/-- C1: evaluation of the code at a failing input.  On the §8 example run
(one-way, one DUB→BCN flight priced 80 within budget), the one-way branch of
`generate_results` yields exactly the one result event and never a terminal
END sentinel, because the sentinel emission of app.py lines 391-400 sits
inside the return-family `else` branch.  This contradicts the claim that
every run, regardless of trip type, ends with exactly one END sentinel. -/
theorem c1_one_way_run_emits_no_end :
    generate_results exOneWayConfig exOneWayApi exReturnApiEmpty =
      [Event.oneWayResult exFlight 80]
    ∧ Event.endOfStream ∉ generate_results exOneWayConfig exOneWayApi exReturnApiEmpty := by
  decide

/-- C2: evaluation of the code at a failing input.  `exOneWayRequest` is a
well-formed one-way request (valid dates, valid airport code, adults = 1,
maxPrice = 100 ≥ 0) that merely omits `minDays`/`maxDays`, which the
specification only requires for stay-window trip types.  The claim says
validation succeeds (or at worst a 400-class response); the code instead
runs `int(None)`, whose `TypeError` escapes every `except ValueError`
handler and reaches the blanket 500 handler. -/
theorem c2_missing_stay_fields_yield_500 :
    search_flights exOneWayRequest = SearchResponse.internalError := by
  decide

/-- C3: in a return-family run, the NO_FLIGHTS sentinel is emitted iff zero
candidates survived filtering across the entire run, and when emitted it
appears exactly once, immediately before the terminal END sentinel. -/
theorem c3_no_flights_iff_no_survivors (cfg : SearchConfig) (api : ReturnApi) :
    (Event.noFlights ∈ runReturn cfg api ↔ returnRunSurvivors cfg api = [])
    ∧ (returnRunSurvivors cfg api = [] →
        ∃ evs, runReturn cfg api = evs ++ [Event.noFlights, Event.endOfStream]
          ∧ Event.noFlights ∉ evs) := by
  have hfound := returnDates_found cfg api (weekendModeOf cfg.tripType) (returnDates cfg)
    { flights_found := false, events := [] }
  have hinv : ReturnInv cfg (weekendModeOf cfg.tripType)
      ((returnDates cfg).foldl (returnDateStep cfg api (weekendModeOf cfg.tripType))
        { flights_found := false, events := [] }) := by
    apply returnFold_inv
    intro e he
    simp at he
  set final := (returnDates cfg).foldl (returnDateStep cfg api (weekendModeOf cfg.tripType))
    { flights_found := false, events := [] } with hfinal
  have hnf : Event.noFlights ∉ final.events := by
    intro hmem
    obtain ⟨t, ht, _⟩ := hinv _ hmem
    simp [emitTripEvent] at ht
  have hrun : runReturn cfg api =
      final.events ++
        ((if final.flights_found then [] else [Event.noFlights]) ++ [Event.endOfStream]) := by
    unfold runReturn
    rw [List.append_assoc]
  have hsurv : final.flights_found = !(returnRunSurvivors cfg api).isEmpty := by
    rw [hfound, Bool.false_or]
    rfl
  by_cases hemp : returnRunSurvivors cfg api = []
  · have hff : final.flights_found = false := by
      rw [hsurv, hemp]
      rfl
    constructor
    · constructor
      · intro _
        exact hemp
      · intro _
        rw [hrun, hff]
        simp
    · intro _
      refine ⟨final.events, ?_, hnf⟩
      rw [hrun, hff]
      rfl
  · have hff : final.flights_found = true := by
      rw [hsurv]
      cases hx : (returnRunSurvivors cfg api).isEmpty
      · rfl
      · exact absurd (List.isEmpty_iff.mp hx) hemp
    constructor
    · constructor
      · intro hmem
        exfalso
        rw [hrun, hff] at hmem
        simp at hmem
        exact hnf hmem
      · intro he
        exact absurd he hemp
    · intro he
      exact absurd he hemp

unseal Rat.mul in
theorem c3_no_flights_iff_no_survivors_witness :
    Event.noFlights ∈ runReturn exReturnConfig exReturnApiEmpty
    ∧ returnRunSurvivors exReturnConfig exReturnApiEmpty = [] :=
  ⟨(c3_no_flights_iff_no_survivors exReturnConfig exReturnApiEmpty).1.mpr (by decide),
    by decide⟩

/-- C4: in a one-way run, at most one result event is emitted per
(origin, destination, departureTime) key, and a dedup key appears among the
emitted events iff some filtered candidate of the run bears it (the first
such candidate is admitted, later ones suppressed). -/
theorem c4_one_way_dedup (cfg : SearchConfig) (api : OneWayApi) (o dst : String)
    (dep : DateTime) :
    ((runOneWay cfg api).filter (eventHasKey o dst dep)).length ≤ 1
    ∧ (∀ k : String, k ∈ (runOneWay cfg api).map eventKeyD ↔
        k ∈ (oneWayRunSurvivors cfg api).map flightId) := by
  obtain ⟨st, hst, hinv⟩ := runOneWay_inv cfg api
  have hrun : runOneWay cfg api = st.events := by
    unfold runOneWay
    rw [hst]
  constructor
  · have hsubl : ((runOneWay cfg api).filter (eventHasKey o dst dep)).Sublist
        (runOneWay cfg api) := List.filter_sublist _
    have hnd : (((runOneWay cfg api).filter (eventHasKey o dst dep)).map eventKeyD).Nodup := by
      apply List.Nodup.sublist (List.Sublist.map eventKeyD hsubl)
      rw [hrun]
      exact hinv.1
    have hconst : ∀ x ∈ ((runOneWay cfg api).filter (eventHasKey o dst dep)).map eventKeyD,
        x = o ++ "-" ++ dst ++ "-" ++ dep.isoformat := by
      intro x hx
      obtain ⟨e, he, rfl⟩ := List.mem_map.mp hx
      have hkey := (List.mem_filter.mp he).2
      cases e with
      | oneWayResult f tp =>
        simp only [eventHasKey, Bool.and_eq_true, beq_iff_eq] at hkey
        obtain ⟨⟨h1, h2⟩, h3⟩ := hkey
        simp [eventKeyD, flightId, h1, h2, h3]
      | returnResult t tp => simp [eventHasKey] at hkey
      | noFlights => simp [eventHasKey] at hkey
      | endOfStream => simp [eventHasKey] at hkey
    have hlen := nodup_const_length_le_one _ _ hnd hconst
    rwa [List.length_map] at hlen
  · intro k
    have hseen := oneWayDatesFold_seen cfg api (oneWayDates cfg)
      { seen := [], flights_found := false, events := [] } k
    rw [hst] at hseen
    rw [hrun, ← hinv.2.1 k, hseen]
    simp [oneWayRunSurvivors]

unseal Rat.mul in
theorem c4_one_way_dedup_witness :
    ((runOneWay exOneWayConfig exOneWayApi).filter
      (eventHasKey "DUB" "BCN" { day := 0, minuteOfDay := 600 })).length ≤ 1
    ∧ ("DUB-BCN-0T600" ∈ (runOneWay exOneWayConfig exOneWayApi).map eventKeyD ↔
        "DUB-BCN-0T600" ∈ (oneWayRunSurvivors exOneWayConfig exOneWayApi).map flightId) :=
  ⟨(c4_one_way_dedup exOneWayConfig exOneWayApi "DUB" "BCN" { day := 0, minuteOfDay := 600 }).1,
    (c4_one_way_dedup exOneWayConfig exOneWayApi "DUB" "BCN"
      { day := 0, minuteOfDay := 600 }).2 "DUB-BCN-0T600"⟩

/-- C5: within one (date, origin) batch, emitted events are ascending in
`totalPrice`, and the sort is stable — candidates with equal (per-person)
price retain the order in which the upstream source returned them: for the
return-family branch the equal-price survivors are emitted exactly in
upstream order, and for the one-way branch (where deduplication may drop
some) they form a subsequence of the upstream order. -/
theorem c5_batch_sorted_stable (cfg : SearchConfig) (mode : Option WeekendMode)
    (trips : List Trip) (flights : List Flight) (seen : List String) (p : Rat)
    (hpax : (0 : Int) ≤ cfg.total_passengers) :
    (returnBatchEvents cfg mode trips).Pairwise (fun a b => eventTotal a ≤ eventTotal b)
    ∧ (returnPayloads (returnBatchEvents cfg mode trips)).filter
        (fun t => decide (t.totalPrice = p)) =
      (trips.filter (returnFilter cfg mode)).filter (fun t => decide (t.totalPrice = p))
    ∧ ((emitOneWay cfg (sortByKey Flight.price (flights.filter (oneWayFilter cfg)))
        seen).2).Pairwise (fun a b => eventTotal a ≤ eventTotal b)
    ∧ List.Sublist
        ((oneWayPayloads ((emitOneWay cfg
            (sortByKey Flight.price (flights.filter (oneWayFilter cfg))) seen).2)).filter
          (fun f => decide (f.price = p)))
        ((flights.filter (oneWayFilter cfg)).filter (fun f => decide (f.price = p))) := by
  have hcast : (0 : Rat) ≤ (cfg.total_passengers : Rat) := by exact_mod_cast hpax
  refine ⟨?_, ?_, ?_, ?_⟩
  · unfold returnBatchEvents
    refine List.Pairwise.map _ ?_ (pairwise_sortByKey Trip.totalPrice _)
    intro a b hab
    simp only [emitTripEvent, eventTotal]
    exact mul_le_mul_of_nonneg_right hab hcast
  · unfold returnBatchEvents
    rw [returnPayloads_map_emit, filter_sortByKey]
  · obtain ⟨sub, hsubl, hev, _, _, _, _⟩ := emitOneWay_spec cfg
      (sortByKey Flight.price (flights.filter (oneWayFilter cfg))) seen
    rw [hev]
    have hp : sub.Pairwise (fun a b => a.price ≤ b.price) :=
      (pairwise_sortByKey Flight.price _).sublist hsubl
    refine List.Pairwise.map _ ?_ hp
    intro a b hab
    simp only [emitFlightEvent, eventTotal]
    exact mul_le_mul_of_nonneg_right hab hcast
  · obtain ⟨sub, hsubl, hev, _, _, _, _⟩ := emitOneWay_spec cfg
      (sortByKey Flight.price (flights.filter (oneWayFilter cfg))) seen
    rw [hev, oneWayPayloads_map_emit]
    have h1 := List.Sublist.filter (fun f => decide (f.price = p)) hsubl
    rwa [filter_sortByKey] at h1

unseal Rat.mul in
theorem c5_batch_sorted_stable_witness :
    (0 : Int) ≤ exWeekendConfig.total_passengers
    ∧ (returnBatchEvents exWeekendConfig (some WeekendMode.DEFAULT) [exTrip]).Pairwise
        (fun a b => eventTotal a ≤ eventTotal b) :=
  ⟨by decide,
    (c5_batch_sorted_stable exWeekendConfig (some WeekendMode.DEFAULT) [exTrip] [exFlight]
      [] 80 (by decide)).1⟩

/-- C6: for every validated streaming request, the passenger multiplier is
exactly adults + teens + children; a price passes the budget filter iff
per-person price × that sum is at most maxPrice (a bound on the combined
total, not per person); and every emitted event's `totalPrice` equals the
per-person price times that sum and respects the bound. -/
theorem c6_price_filter_total_cost (req : RawRequest) (cfg : SearchConfig)
    (h : search_flights req = SearchResponse.stream cfg) :
    cfg.total_passengers = cfg.adults + cfg.teens + cfg.children
    ∧ (∀ p : Rat, priceOk cfg p = true ↔
        p * ((cfg.adults + cfg.teens + cfg.children : Int) : Rat) ≤ cfg.maximum_price)
    ∧ (∀ (apiO : OneWayApi) (f : Flight) (tp : Rat),
        Event.oneWayResult f tp ∈ runOneWay cfg apiO →
          tp = f.price * ((cfg.adults + cfg.teens + cfg.children : Int) : Rat)
          ∧ tp ≤ cfg.maximum_price)
    ∧ (∀ (apiR : ReturnApi) (t : Trip) (tp : Rat),
        Event.returnResult t tp ∈ runReturn cfg apiR →
          tp = t.totalPrice * ((cfg.adults + cfg.teens + cfg.children : Int) : Rat)
          ∧ tp ≤ cfg.maximum_price) := by
  obtain ⟨hsum, _, _, _⟩ := search_flights_stream_inversion req cfg h
  have hcast : ((cfg.total_passengers : Int) : Rat) =
      ((cfg.adults + cfg.teens + cfg.children : Int) : Rat) := by
    rw [hsum]
  refine ⟨hsum, ?_, ?_, ?_⟩
  · intro p
    unfold priceOk
    rw [hcast]
    exact ⟨fun hd => of_decide_eq_true hd, fun hle => decide_eq_true hle⟩
  · intro apiO f tp hmem
    obtain ⟨f2, he, hfil⟩ := runOneWay_result_events cfg apiO _ hmem
    unfold emitFlightEvent at he
    injection he with h1 h2
    subst h1
    simp only [oneWayFilter, priceOk, Bool.and_eq_true, decide_eq_true_eq] at hfil
    constructor
    · rw [h2, hcast]
    · rw [h2]
      exact hfil.1
  · intro apiR t tp hmem
    obtain ⟨heq, hfil⟩ := runReturn_result_events cfg apiR t tp hmem
    simp only [returnFilter, priceOk, Bool.and_eq_true, decide_eq_true_eq] at hfil
    constructor
    · rw [heq, hcast]
    · rw [heq]
      exact hfil.1.1.1

theorem c6_price_filter_total_cost_witness :
    exReturnRequestConfig.total_passengers =
      exReturnRequestConfig.adults + exReturnRequestConfig.teens
        + exReturnRequestConfig.children :=
  (c6_price_filter_total_cost exReturnRequest exReturnRequestConfig (by decide)).1

/-- C7: the iterated candidate departure dates are finite, strictly
ascending and inclusive of the start date; the one-way axis runs to `end`
inclusive, the return-family axis to `end - minDays` inclusive; and when
`end - minDays < start` the return-family axis is empty and the run emits
only the sentinels regardless of the upstream source (no query is issued). -/
theorem c7_date_axis (cfg : SearchConfig) :
    (∀ d, d ∈ oneWayDates cfg ↔ cfg.startD ≤ d ∧ d ≤ cfg.endD)
    ∧ (oneWayDates cfg).Pairwise (· < ·)
    ∧ (cfg.startD ≤ cfg.endD →
        (oneWayDates cfg).head? = some cfg.startD
        ∧ (oneWayDates cfg).getLast? = some cfg.endD)
    ∧ (∀ d, d ∈ returnDates cfg ↔ cfg.startD ≤ d ∧ d ≤ cfg.endD - cfg.min_days)
    ∧ (returnDates cfg).Pairwise (· < ·)
    ∧ (cfg.startD ≤ cfg.endD - cfg.min_days →
        (returnDates cfg).head? = some cfg.startD
        ∧ (returnDates cfg).getLast? = some (cfg.endD - cfg.min_days))
    ∧ (cfg.endD - cfg.min_days < cfg.startD →
        returnDates cfg = []
        ∧ ∀ api : ReturnApi, runReturn cfg api = [Event.noFlights, Event.endOfStream]) := by
  refine ⟨?_, ?_, ?_, ?_, ?_, ?_, ?_⟩
  · intro d
    exact mem_intRange
  · exact intRange_pairwise _ _
  · intro h
    exact ⟨intRange_head h, intRange_getLast h⟩
  · intro d
    exact mem_intRange
  · exact intRange_pairwise _ _
  · intro h
    exact ⟨intRange_head h, intRange_getLast h⟩
  · intro h
    have hnil : returnDates cfg = [] := intRange_eq_nil h
    refine ⟨hnil, ?_⟩
    intro api
    unfold runReturn
    rw [hnil]
    rfl

theorem c7_date_axis_witness :
    returnDates exEmptyWindowConfig = []
    ∧ runReturn exEmptyWindowConfig exReturnApiEmpty =
        [Event.noFlights, Event.endOfStream] := by
  have h := (c7_date_axis exEmptyWindowConfig).2.2.2.2.2.2 (by decide)
  exact ⟨h.1, h.2 exReturnApiEmpty⟩

/-- C8: a weekend-mode run never emits a trip whose outbound departure is
not a Friday/Saturday or whose inbound departure is not a Saturday/Sunday;
a longWeekend-mode run never emits a trip whose outbound departure is not
Thursday-Saturday or whose inbound departure is not Sunday/Monday
(weekday convention: Monday = 0). -/
theorem c8_weekend_weekday_constraints (cfg : SearchConfig) (apiO : OneWayApi)
    (apiR : ReturnApi) :
    (cfg.tripType = some "weekend" → ∀ (t : Trip) (tp : Rat),
      Event.returnResult t tp ∈ generate_results cfg apiO apiR →
        (t.outbound.departureTime.weekday = 4 ∨ t.outbound.departureTime.weekday = 5)
        ∧ (t.inbound.departureTime.weekday = 5 ∨ t.inbound.departureTime.weekday = 6))
    ∧ (cfg.tripType = some "longWeekend" → ∀ (t : Trip) (tp : Rat),
      Event.returnResult t tp ∈ generate_results cfg apiO apiR →
        (t.outbound.departureTime.weekday = 3 ∨ t.outbound.departureTime.weekday = 4
          ∨ t.outbound.departureTime.weekday = 5)
        ∧ (t.inbound.departureTime.weekday = 6 ∨ t.inbound.departureTime.weekday = 0)) := by
  constructor
  · intro htt t tp hmem
    have hne : ¬ (cfg.tripType = some "oneWay") := by
      rw [htt]
      decide
    rw [generate_results, if_neg hne] at hmem
    have hres := runReturn_result_events cfg apiR t tp hmem
    have hmode : weekendModeOf cfg.tripType = some WeekendMode.DEFAULT := by
      rw [htt]
      decide
    rw [hmode] at hres
    obtain ⟨_, hfil⟩ := hres
    simp only [returnFilter, Bool.and_eq_true] at hfil
    have hw := hfil.1.2
    simp only [is_valid_weekend_trip, Bool.and_eq_true] at hw
    obtain ⟨hw1, hw2⟩ := hw
    constructor
    · simpa [is_valid_weekend_day] using hw1
    · simpa [is_valid_weekend_day] using hw2
  · intro htt t tp hmem
    have hne : ¬ (cfg.tripType = some "oneWay") := by
      rw [htt]
      decide
    rw [generate_results, if_neg hne] at hmem
    have hres := runReturn_result_events cfg apiR t tp hmem
    have hmode : weekendModeOf cfg.tripType = some WeekendMode.RELAXED := by
      rw [htt]
      decide
    rw [hmode] at hres
    obtain ⟨_, hfil⟩ := hres
    simp only [returnFilter, Bool.and_eq_true] at hfil
    have hw := hfil.1.2
    simp only [is_valid_weekend_trip, Bool.and_eq_true] at hw
    obtain ⟨hw1, hw2⟩ := hw
    constructor
    · simpa [is_valid_weekend_day, or_assoc] using hw1
    · simpa [is_valid_weekend_day] using hw2

unseal Rat.mul in
theorem c8_weekend_weekday_constraints_witness :
    (exTrip.outbound.departureTime.weekday = 4 ∨ exTrip.outbound.departureTime.weekday = 5)
    ∧ (exTrip.inbound.departureTime.weekday = 5 ∨ exTrip.inbound.departureTime.weekday = 6) :=
  (c8_weekend_weekday_constraints exWeekendConfig exOneWayApiEmpty exReturnApi).1 rfl
    exTrip 80 (by decide)

/-- C9: a failed upstream query for one (date, origin) pair is equivalent to
that pair returning no candidates: the rest of the run — all other origins
and dates — produces exactly the same event stream, and the failure never
becomes a stream-level failure or error response. -/
theorem c9_upstream_failure_skipped (cfg : SearchConfig) (apiR : ReturnApi)
    (apiO : OneWayApi) (d0 : Int) (o0 : String)
    (hR : apiR o0 d0 d0 (d0 + cfg.min_days) (min cfg.endD (d0 + cfg.max_days)) =
      Except.error ())
    (hO : apiO o0 d0 (d0 + 1) = Except.error ()) :
    runReturn cfg apiR =
      runReturn cfg
        (fun o d a b c => if o = o0 ∧ d = d0 then Except.ok [] else apiR o d a b c)
    ∧ runOneWay cfg apiO =
      runOneWay cfg (fun o d b => if o = o0 ∧ d = d0 then Except.ok [] else apiO o d b) :=
  ⟨runReturn_override cfg apiR d0 o0 hR, runOneWay_override cfg apiO d0 o0 hO⟩

unseal Rat.mul in
theorem c9_upstream_failure_skipped_witness :
    runReturn exReturnConfig exReturnApiFail =
      runReturn exReturnConfig
        (fun o d a b c => if o = "DUB" ∧ d = 0 then Except.ok [] else exReturnApiFail o d a b c)
    ∧ runOneWay exReturnConfig exOneWayApiFail =
      runOneWay exReturnConfig
        (fun o d b => if o = "DUB" ∧ d = 0 then Except.ok [] else exOneWayApiFail o d b) :=
  c9_upstream_failure_skipped exReturnConfig exReturnApiFail exOneWayApiFail 0 "DUB" rfl rfl

/-- C10: an absent or empty `wantedCountries` parameter parses to the
one-element list containing the empty string; the "cannot be empty"
rejection can never fire (a comma-split is never the empty list); and the
destination-country filter with that list accepts every candidate, since
the empty string is a substring of every display name. -/
theorem c10_empty_wanted_countries_matches_all (req : RawRequest) :
    ((req.wantedCountries = none ∨ req.wantedCountries = some "") →
      splitComma ((req.wantedCountries).getD "") = [""])
    ∧ search_flights req ≠ SearchResponse.badRequest
        "Origin airports and wanted countries cannot be empty"
    ∧ (∀ s : String, wantedMatch [""] s = true) := by
  refine ⟨?_, ?_, ?_⟩
  · rintro (h | h) <;> rw [h] <;> decide
  · intro h
    unfold search_flights at h
    repeat' split at h
    all_goals try simp_all
    all_goals (
      have hcon : splitComma ((req.originAirports).getD "") = [] ∨
          splitComma ((req.wantedCountries).getD "") = [] := by assumption
      rcases hcon with hc | hc
      · exact splitComma_ne_nil _ hc
      · exact splitComma_ne_nil _ hc)
  · intro s
    simp [wantedMatch, strContains_nil]

theorem c10_empty_wanted_countries_matches_all_witness :
    splitComma ((exNoCountriesRequest.wantedCountries).getD "") = [""]
    ∧ wantedMatch [""] "Barcelona, Spain" = true :=
  ⟨(c10_empty_wanted_countries_matches_all exNoCountriesRequest).1 (Or.inl rfl),
    (c10_empty_wanted_countries_matches_all exNoCountriesRequest).2.2 "Barcelona, Spain"⟩

end Flymebaby
